import Mathlib

/-!
Shallow embedding of `src/AI_Travel_Agent.py` (a travel-planning glue
script) and proofs about its parsing and aggregation behaviour.

Python strings are modelled as `List Char`.  Network and LLM responses are
passed to the embedded functions as explicit parameters: a `none` stands
for a call whose body could not be decoded (the `except` branches of the
source), a `some` carries the decoded payload.
-/

namespace TravelAgent

/-- Python strings as lists of unicode scalar values. -/
abbrev Text := List Char

/-- Coerce a Lean string literal to the `Text` model. -/
def str (s : String) : Text := s.data

/-- The backslash character (the buggy regex on line 27 demands it). -/
def bslash : Char := Char.ofNat 92

/-- The apostrophe character. -/
def squote : Char := Char.ofNat 39

/-- The rupee sign U+20B9 used by the cost regex on line 177. -/
def rupee : Char := Char.ofNat 8377

/-- Whitespace stripped by Python `str.strip()` (the ASCII part, which is
all the repository's data can contain on the stripped ends). -/
def isPySpace (c : Char) : Bool :=
  c = ' ' || c = '\t' || c = '\n' || c = '\x0D' || c = '\x0B' || c = '\x0C'

/-- Python `s.strip()`: drop leading and trailing whitespace. -/
def pyStrip (l : Text) : Text :=
  ((l.dropWhile isPySpace).reverse.dropWhile isPySpace).reverse

/-- Python `s.lower()` (ASCII case folding; the city names and feed text
compared by the source are ASCII). -/
def lowerL (l : Text) : Text := l.map Char.toLower

/-- `startsWithL pre l` : does `l` start with `pre`?  (Python `startswith`.) -/
def startsWithL : Text → Text → Bool
  | [], _ => true
  | _ :: _, [] => false
  | a :: as, b :: bs => a = b && startsWithL as bs

/-- Python `needle in hay` : contiguous-substring containment. -/
def isSubstr (needle : Text) : Text → Bool
  | [] => startsWithL needle []
  | c :: rest => startsWithL needle (c :: rest) || isSubstr needle rest

/-!
## The attraction regex of line 27

The source compiles the RAW string
`r"(?:1\\.|2\\.|3\\.|\\-)\\s*([A-Z][\\w\\s,'&\\-]+)"`.
Because the string is raw, every `\\` reaches the regex engine as an
escaped literal backslash.  The compiled pattern is therefore:

  prefix  : `1` `\` anychar | `2` `\` anychar | `3` `\` anychar | `\` `-`
  then    : one literal `\`, then zero or more literal `s` characters
  group   : one ASCII uppercase letter, then one or more characters from
            the class  backslash, `w`, `s`, `,`, apostrophe, `&`, `-`.

All quantified atoms below are followed by atoms disjoint from them
(`s*` is followed by `[A-Z]`, and the final `+` ends the pattern), so the
greedy left-to-right matcher below is exactly Python's backtracking
semantics for this pattern.
-/

/-- Character class `[\\w\\s,'&\\-]` of the compiled (buggy) pattern:
literal backslash, letter w, letter s, comma, apostrophe, ampersand, dash. -/
def attrClassChar (c : Char) : Bool :=
  c = bslash || c = 'w' || c = 's' || c = ',' || c = squote || c = '&' || c = '-'

/-- Match the alternation `(?:1\\.|2\\.|3\\.|\\-)` at the head of the
input; return the remaining input on success. -/
def attrMarker : Text → Option Text
  | c1 :: c2 :: rest =>
    if (c1 = '1' || c1 = '2' || c1 = '3') && c2 = bslash then
      -- the `.` consumes one character other than a newline
      match rest with
      | a :: rest2 => if a = '\n' then none else some rest2
      | [] => none
    else if c1 = bslash && c2 = '-' then some rest
    else none
  | _ => none

/-- Match `\\s*` at the head: one literal backslash then a run of `s`. -/
def attrGap : Text → Option Text
  | c :: rest => if c = bslash then some (rest.dropWhile (fun d => d = 's')) else none
  | [] => none

/-- Match the capture group `([A-Z][\\w\\s,'&\\-]+)`: the captured text and
the remaining input. -/
def attrGroup : Text → Option (Text × Text)
  | c :: rest =>
    if c.isUpper then
      let body := rest.takeWhile attrClassChar
      match body with
      | [] => none
      | _ :: _ => some (c :: body, rest.drop body.length)
    else none
  | [] => none

/-- One full match attempt of the compiled pattern at the head of the
input: the captured group and the input remaining after the whole match. -/
def attrMatch (cs : Text) : Option (Text × Text) :=
  match attrMarker cs with
  | none => none
  | some afterMarker =>
    match attrGap afterMarker with
    | none => none
    | some afterGap => attrGroup afterGap

/-- `re.findall` scan loop for the attraction pattern: try a match at every
position, resume after the end of each match.  Fuel is the input length
(every match consumes at least one character, as does every failure). -/
def findallAttrGo : Nat → Text → List Text
  | 0, _ => []
  | _, [] => []
  | fuel + 1, c :: rest =>
    match attrMatch (c :: rest) with
    | some (grp, after) => grp :: findallAttrGo fuel after
    | none => findallAttrGo fuel rest

/-- `re.findall(attraction_regex, text)` as compiled from line 27. -/
def findallAttr (cs : Text) : List Text :=
  findallAttrGo cs.length cs

/-- First-occurrence-preserving deduplication, the semantics of Python
`list(dict.fromkeys(xs))` on line 28. -/
def pyDedup : List Text → List Text
  | [] => []
  | x :: xs => x :: pyDedup (xs.filter (fun y => y ≠ x))
termination_by l => l.length
decreasing_by
  simp only [List.length_cons]
  exact Nat.lt_succ_of_le (List.length_filter_le _ _)

/-- Result record of `travel_guide` (lines 29-33). -/
structure TravelGuideOut where
  city : Text
  attractions : List Text
  full_guide : Text
deriving DecidableEq, Repr

/-- `travel_guide` (lines 24-33).  The LLM response `full_response` is a
parameter; the function extracts attraction candidates with the compiled
regex, strips them, keeps those of stripped length > 3, deduplicates
keeping first occurrences, and caps the list at 3. -/
def travel_guide (city full_response : Text) : TravelGuideOut :=
  let attraction_pattern := findallAttr full_response
  let attractions :=
    pyDedup ((attraction_pattern.map pyStrip).filter (fun a => 3 < a.length))
  { city := city, attractions := attractions.take 3, full_guide := full_response }

/-!
## Cost summation (lines 173-180)
-/

/-- Line-break characters that Python `str.splitlines` splits on, other
than `\r\n`/`\r`/`\n` which the splitter below handles positionally. -/
def isOtherLineBreak (c : Char) : Bool :=
  c = '\x0B' || c = '\x0C' || c = '\x1C' || c = '\x1D' || c = '\x1E' ||
  c = Char.ofNat 133 || c = Char.ofNat 8232 || c = Char.ofNat 8233

/-- Worker for `splitlinesPy`; `acc` is the current line reversed. -/
def splitlinesGo : Text → Text → List Text
  | acc, [] => if acc = [] then [] else [acc.reverse]
  | acc, '\x0D' :: '\n' :: rest => acc.reverse :: splitlinesGo [] rest
  | acc, '\x0D' :: rest => acc.reverse :: splitlinesGo [] rest
  | acc, '\n' :: rest => acc.reverse :: splitlinesGo [] rest
  | acc, c :: rest =>
    if isOtherLineBreak c then acc.reverse :: splitlinesGo [] rest
    else splitlinesGo (c :: acc) rest

/-- Python `str.splitlines()`. -/
def splitlinesPy (l : Text) : List Text := splitlinesGo [] l

/-- Numeric value of a run of ASCII digits (Python `int` on the captured
group; the sources only produce ASCII digits). -/
def digitsVal (ds : Text) : Nat :=
  ds.foldl (fun n c => n * 10 + (c.toNat - 48)) 0

/-- `re.search(r"[₹\$](\d+)", line)`: find the leftmost currency sign
(rupee or dollar) immediately followed by at least one digit, and return
the value of the maximal digit run. -/
def searchAmount : Text → Option Nat
  | [] => none
  | c :: rest =>
    if c = rupee || c = '$' then
      match rest with
      | d :: _ =>
        if d.isDigit then some (digitsVal (rest.takeWhile Char.isDigit))
        else searchAmount rest
      | [] => none
    else searchAmount rest

/-- `calculate_total_cost` (lines 173-180): keep the lines containing
"Estimated cost", extract the first currency amount on each, and sum.
A qualifying line without a match contributes nothing. -/
def calculate_total_cost (itinerary_text : Text) : Nat :=
  let cost_lines :=
    (splitlinesPy itinerary_text).filter (fun line => isSubstr (str "Estimated cost") line)
  (cost_lines.map (fun line => (searchAmount line).getD 0)).sum

/-!
## A model of `json.loads` for the hotel text (line 188) and the weather
payload (line 60)

Only the fragment of JSON the script can meet is needed; the parser
below follows the grammar json.loads accepts on that fragment: values are
objects, arrays, strings, numbers and the three literals, with
whitespace between tokens, and the whole input must be consumed.
Numbers keep their raw lexeme: no claim observes a numeric value.
-/

/-- Decoded JSON values (Python objects produced by `json.loads`). -/
inductive PyJson where
  | null : PyJson
  | bool (b : Bool) : PyJson
  | num (raw : Text) : PyJson
  | str (s : Text) : PyJson
  | arr (xs : List PyJson) : PyJson
  | obj (fields : List (Text × PyJson)) : PyJson

/-- JSON inter-token whitespace. -/
def isJsonWs (c : Char) : Bool :=
  c = ' ' || c = '\t' || c = '\n' || c = '\x0D'

/-- Skip JSON whitespace. -/
def skipWs (cs : Text) : Text := cs.dropWhile isJsonWs

/-- Characters that may occur in a JSON number lexeme. -/
def isNumChar (c : Char) : Bool :=
  c.isDigit || c = '-' || c = '+' || c = '.' || c = 'e' || c = 'E'

/-- Value of one hexadecimal digit. -/
def hexVal (c : Char) : Nat :=
  if c.isDigit then c.toNat - 48 else c.toLower.toNat - 87

/-- Is `c` a hexadecimal digit? -/
def isHexDigitC (c : Char) : Bool :=
  c.isDigit || (97 ≤ c.toLower.toNat && c.toLower.toNat ≤ 102)

/-- Parse the body of a JSON string after the opening quote, decoding the
escape sequences `json.loads` accepts. -/
def parseJStr : Nat → Text → Option (Text × Text)
  | 0, _ => none
  | _, [] => none
  | fuel + 1, c :: rest =>
    if c = '"' then some ([], rest)
    else if c = bslash then
      match rest with
      | [] => none
      | e :: rest2 =>
        if e = 'u' then
          match rest2 with
          | h1 :: h2 :: h3 :: h4 :: rest3 =>
            if isHexDigitC h1 && isHexDigitC h2 && isHexDigitC h3 && isHexDigitC h4 then
              match parseJStr fuel rest3 with
              | some (s, r) =>
                some (Char.ofNat
                  (hexVal h1 * 4096 + hexVal h2 * 256 + hexVal h3 * 16 + hexVal h4)
                  :: s, r)
              | none => none
            else none
          | _ => none
        else
          let decoded : Option Char :=
            if e = '"' then some '"'
            else if e = bslash then some bslash
            else if e = '/' then some '/'
            else if e = 'n' then some '\n'
            else if e = 't' then some '\t'
            else if e = 'r' then some '\x0D'
            else if e = 'b' then some '\x08'
            else if e = 'f' then some '\x0C'
            else none
          match decoded with
          | none => none
          | some d =>
            match parseJStr fuel rest2 with
            | some (s, r) => some (d :: s, r)
            | none => none
    else
      match parseJStr fuel rest with
      | some (s, r) => some (c :: s, r)
      | none => none

mutual

/-- Parse one JSON value at the head of the input (whitespace already
significant: callers skip it first). -/
def parseJVal : Nat → Text → Option (PyJson × Text)
  | 0, _ => none
  | fuel + 1, cs =>
    match skipWs cs with
    | [] => none
    | c :: rest =>
      if c = '[' then
        match skipWs rest with
        | ']' :: r2 => some (.arr [], r2)
        | r2 => match parseJArr fuel r2 with
          | some (xs, r3) => some (.arr xs, r3)
          | none => none
      else if c = '\x7b' then
        match skipWs rest with
        | '\x7d' :: r2 => some (.obj [], r2)
        | r2 => match parseJObj fuel r2 with
          | some (fs, r3) => some (.obj fs, r3)
          | none => none
      else if c = '"' then
        match parseJStr (fuel + 1) rest with
        | some (s, r2) => some (.str s, r2)
        | none => none
      else if c.isDigit || c = '-' then
        let lexeme := (c :: rest).takeWhile isNumChar
        some (.num lexeme, (c :: rest).drop lexeme.length)
      else if startsWithL (str "true") (c :: rest) then
        some (.bool true, rest.drop 3)
      else if startsWithL (str "false") (c :: rest) then
        some (.bool false, rest.drop 4)
      else if startsWithL (str "null") (c :: rest) then
        some (.null, rest.drop 3)
      else none

/-- Parse the elements of a non-empty JSON array, up to and including the
closing bracket. -/
def parseJArr : Nat → Text → Option (List PyJson × Text)
  | 0, _ => none
  | fuel + 1, cs =>
    match parseJVal fuel cs with
    | none => none
    | some (v, rest) =>
      match skipWs rest with
      | ',' :: r2 =>
        match parseJArr fuel r2 with
        | some (xs, r3) => some (v :: xs, r3)
        | none => none
      | ']' :: r2 => some ([v], r2)
      | _ => none

/-- Parse the members of a non-empty JSON object, up to and including the
closing brace. -/
def parseJObj : Nat → Text → Option (List (Text × PyJson) × Text)
  | 0, _ => none
  | fuel + 1, cs =>
    match skipWs cs with
    | '"' :: rest =>
      match parseJStr (fuel + 1) rest with
      | none => none
      | some (k, r2) =>
        match skipWs r2 with
        | ':' :: r3 =>
          match parseJVal fuel r3 with
          | none => none
          | some (v, r4) =>
            match skipWs r4 with
            | ',' :: r5 =>
              match parseJObj fuel r5 with
              | some (fs, r6) => some ((k, v) :: fs, r6)
              | none => none
            | '\x7d' :: r5 => some ([(k, v)], r5)
            | _ => none
        | _ => none
    | _ => none

end

/-- `json.loads`: parse one value and require the input to be exhausted;
`none` models the `json.JSONDecodeError` path. -/
def json_loads (cs : Text) : Option PyJson :=
  match parseJVal (cs.length + 1) cs with
  | some (v, rest) => if skipWs rest = [] then some v else none
  | none => none

/-- Python dict lookup on an object decoded by `json.loads`: with
duplicate keys the last occurrence wins. -/
def jLookup (k : Text) : List (Text × PyJson) → Option PyJson
  | [] => none
  | (k2, v) :: rest =>
    match jLookup k rest with
    | some r => some r
    | none => if k2 = k then some v else none

/-!
## Trip summary (lines 183-201)
-/

/-- The `top_hotel` value computed by the try/except block of
`generate_summary` (lines 184-191): strip the hotel text; if it does not
start with `[`, or fails to parse, or the first element has no `name`
key (or is not an object), every raised error is caught and the marker
string substituted; an empty parsed list gives `N/A`. -/
def top_hotel (hotel_info : Text) : PyJson :=
  let t := pyStrip hotel_info
  if startsWithL (str "[") t then
    match json_loads t with
    | none => .str (str "Hotel data unavailable")
    | some (.arr []) => .str (str "N/A")
    | some (.arr (v :: _)) =>
      match v with
      | .obj fs =>
        match jLookup (str "name") fs with
        | some w => w
        | none => .str (str "Hotel data unavailable")
      | _ => .str (str "Hotel data unavailable")
    | some _ =>
      -- unreachable: a successful parse of text starting with `[` is an
      -- array; Python would raise here and the except would catch it
      .str (str "Hotel data unavailable")
  else .str (str "Hotel data unavailable")

/-- The values interpolated into the summary f-string of lines 193-200.
The literal template around them is
"Trip Summary: / City: {city} / Duration: {days} days /
Top Attractions: {attractions joined by comma-space} /
Recommended Hotel: {top_hotel} / Estimated Total Trip Cost: ₹{total_cost}". -/
structure TripSummaryParts where
  city : Text
  days : Nat
  attractions_joined : Text
  top_hotel : PyJson
  total_cost : Nat

/-- `generate_summary` (lines 183-201), as the record of values the
summary string is assembled from. -/
def generate_summary (city : Text) (days : Nat) (attractions : List Text)
    (hotel_info : Text) (total_cost : Nat) : TripSummaryParts :=
  { city := city
    days := days
    attractions_joined := List.intercalate (str ", ") attractions
    top_hotel := top_hotel hotel_info
    total_cost := total_cost }

/-!
## Itinerary generation and the orchestrator (lines 160-212)
-/

/-- The argument tuple `generate_itinerary(city, days, attractions,
adventure_sports)` is invoked with. -/
structure ItineraryCall where
  city : Text
  days : Nat
  attractions : List Text
  adventure_sports : List Text
deriving DecidableEq, Repr

/-- The fields `generate_itinerary` interpolates into its prompt template
(lines 160-168): the two lists are joined with comma-space. -/
structure ItineraryPromptFields where
  city : Text
  days : Nat
  attractions_joined : Text
  adventure_joined : Text
deriving DecidableEq, Repr

/-- `generate_itinerary` (lines 160-170).  The Groq model call is the
parameter `backend`; the function formats the prompt fields and returns
the backend's response. -/
def generate_itinerary (call : ItineraryCall)
    (backend : ItineraryPromptFields → Text) : Text :=
  backend
    { city := call.city
      days := call.days
      attractions_joined := List.intercalate (str ", ") call.attractions
      adventure_joined := List.intercalate (str ", ") call.adventure_sports }

/-- The argument tuple `main_travel_planner` passes to
`generate_itinerary` (lines 205-208): the extracted attractions and the
hardcoded `adventure_sports = ["Paragliding", "Jet Skiing"]` of line 207. -/
def main_itinerary_call (city : Text) (days : Nat) (guide_response : Text) :
    ItineraryCall :=
  { city := city
    days := days
    attractions := (travel_guide city guide_response).attractions
    adventure_sports := [str "Paragliding", str "Jet Skiing"] }

/-- The five outputs of `main_travel_planner` (line 212). -/
structure PlannerOut where
  full_guide : Text
  itinerary : Text
  hotel_data : Text
  cost_text : Text
  summary : TripSummaryParts

/-- `main_travel_planner` (lines 204-212).  The three LLM calls are
parameters: `guide_response` and `hotel_response` are the raw responses
of the Gemini model for the two fixed prompts, `itinerary_backend` is the
Groq call of `generate_itinerary`. -/
def main_travel_planner (city : Text) (days : Nat) (guide_response : Text)
    (itinerary_backend : ItineraryPromptFields → Text) (hotel_response : Text) :
    PlannerOut :=
  let guide := travel_guide city guide_response
  let itinerary := generate_itinerary (main_itinerary_call city days guide_response)
    itinerary_backend
  let total_cost := calculate_total_cost itinerary
  { full_guide := guide.full_guide
    itinerary := itinerary
    hotel_data := hotel_response
    cost_text := rupee :: str (Nat.repr total_cost)
    summary := generate_summary city days guide.attractions hotel_response total_cost }

/-!
## Hazard aggregation: `calamity_forecast` (lines 35-102)

The four network responses are parameters: `none` models a body the
source fails to decode (the `except` branches), `some` carries the
decoded payload.  Latitudes, longitudes and magnitudes are modelled as
rationals.
-/

/-- One geocoding candidate: the `lat`/`lon` of a Nominatim result entry
(the source converts the string fields with `float`). -/
structure GeoRecord where
  lat : ℚ
  lon : ℚ
deriving DecidableEq, Repr

/-- One USGS feature's `properties`: `place`, `mag`, `time` (epoch
milliseconds) and `url`. -/
structure QuakeFeature where
  place : Text
  mag : ℚ
  timeMs : Int
  url : Text
deriving DecidableEq, Repr

/-- One earthquake record appended on lines 78-83.  The source renders
`time / 1000` as a UTC timestamp string; the numeric instant is kept
here, as no claim observes the rendering. -/
structure QuakeOut where
  place : Text
  magnitude : ℚ
  time : ℚ
  url : Text
deriving DecidableEq, Repr

/-- One GDACS feed entry (`title`, `summary`, `link`). -/
structure FeedEntry where
  title : Text
  summary : Text
  link : Text
deriving DecidableEq, Repr

/-- One disaster alert record appended on lines 92-96. -/
structure AlertOut where
  event : Text
  details : Text
  link : Text
deriving DecidableEq, Repr

/-- The weather field (lines 58-62): on a decodable body, Python takes
`.get("daily", {})` from the parsed JSON; a body that fails to decode or
a parsed value that is not a dict (so that `.get` raises inside the same
`try`) yields the error-marker string. -/
def calamity_weather (weather_json : Option PyJson) : PyJson ⊕ Text :=
  match weather_json with
  | some (.obj fields) => .inl ((jLookup (str "daily") fields).getD (.obj []))
  | some _ => .inr (str "Weather API failed or returned invalid data")
  | none => .inr (str "Weather API failed or returned invalid data")

/-- The earthquake list built on lines 72-85: keep the features whose
`place` contains the city case-insensitively, or the error-marker string
when the USGS body fails to decode. -/
def calamity_earthquakes (city : Text) (usgs : Option (List QuakeFeature)) :
    List QuakeOut ⊕ Text :=
  match usgs with
  | none => .inr (str "USGS data unavailable or failed to decode")
  | some features =>
    .inl ((features.filter (fun eq => isSubstr (lowerL city) (lowerL eq.place))).map
      (fun eq =>
        { place := eq.place
          magnitude := eq.mag
          time := (eq.timeMs : ℚ) / 1000
          url := eq.url }))

/-- The GDACS alert field built on lines 87-100: keep the entries whose
title or summary contains the city case-insensitively; if none match,
the field becomes the literal "No GDACS disaster alerts found." marker;
a feed that fails to fetch or parse becomes the failure marker. -/
def calamity_alerts (city : Text) (gdacs : Option (List FeedEntry)) :
    List AlertOut ⊕ Text :=
  match gdacs with
  | none => .inr (str "Failed to fetch GDACS alerts")
  | some entries =>
    let kept := entries.filter (fun e =>
      isSubstr (lowerL city) (lowerL e.title) || isSubstr (lowerL city) (lowerL e.summary))
    match kept with
    | [] => .inr (str "No GDACS disaster alerts found.")
    | _ :: _ => .inl (kept.map (fun e =>
        { event := e.title, details := e.summary, link := e.link }))

/-- The geocoding-parse-failure error dict of line 43. -/
def geoFailMsg : Text :=
  str "Failed to parse geolocation response. Possibly blocked or invalid."

/-- The location-not-found error dict of line 45
(`f"Location \x7b city \x7d not found."` with the city in single quotes). -/
def locNotFoundMsg (city : Text) : Text :=
  str "Location " ++ [squote] ++ city ++ [squote] ++ str " not found."

/-- Return value of `calamity_forecast`: either an error dict (lines 43
and 45) or the 5-tuple of line 102.  The tuple's components mirror the
source exactly: city, latitude, longitude, weather data and GDACS
alerts — the `earthquakes` variable of lines 72-85 is not part of it. -/
inductive CalamityResult where
  | error (msg : Text)
  | report (city : Text) (lat lon : ℚ) (weather : PyJson ⊕ Text)
      (alerts : List AlertOut ⊕ Text)

/-- `calamity_forecast` (lines 35-102).  `geo` is the decoded Nominatim
body (`none` = undecodable), `weather_json` the decoded Open-Meteo body,
`usgs` the decoded USGS feature list, `gdacs` the parsed GDACS entries.
The earthquake list is computed (lines 72-85) but, as in the source,
line 102 returns only `(city, lat, lon, weather_data, gdacs_alerts)`. -/
def calamity_forecast (city : Text) (geo : Option (List GeoRecord))
    (weather_json : Option PyJson) (usgs : Option (List QuakeFeature))
    (gdacs : Option (List FeedEntry)) : CalamityResult :=
  match geo with
  | none => .error geoFailMsg
  | some [] => .error (locNotFoundMsg city)
  | some (g :: _) =>
    let _earthquakes := calamity_earthquakes city usgs
    .report city g.lat g.lon (calamity_weather weather_json) (calamity_alerts city gdacs)

/-!
## Helper lemmas
-/

/-- The head of a `dropWhile` result fails the predicate. -/
theorem dropWhile_head_false {p : Char → Bool} {c : Char} :
    ∀ {l t : Text}, l.dropWhile p = c :: t → p c = false := by
  intro l
  induction l with
  | nil => intro t h; simp [List.dropWhile] at h
  | cons a as ih =>
    intro t h
    rw [List.dropWhile_cons] at h
    split at h
    · exact ih h
    · rename_i hpa
      injection h with h1 _
      subst h1
      simpa using hpa

/-- `dropWhile` does nothing on a list whose head fails the predicate. -/
theorem dropWhile_eq_self_of_head_false {p : Char → Bool} {c : Char} {t : Text}
    (hc : p c = false) : (c :: t).dropWhile p = c :: t := by
  simp [List.dropWhile_cons, hc]

/-- `pyStrip` in terms of Mathlib's `rdropWhile`. -/
theorem pyStrip_eq_rdropWhile (l : Text) :
    pyStrip l = List.rdropWhile isPySpace (l.dropWhile isPySpace) := rfl

/-- Python `strip` is idempotent: a stripped string is already trimmed. -/
theorem pyStrip_idem (l : Text) : pyStrip (pyStrip l) = pyStrip l := by
  have hpre : List.IsPrefix (pyStrip l) (l.dropWhile isPySpace) :=
    List.rdropWhile_prefix isPySpace (l.dropWhile isPySpace)
  have hself : (pyStrip l).dropWhile isPySpace = pyStrip l := by
    cases hm : pyStrip l with
    | nil => rfl
    | cons c ct =>
      apply dropWhile_eq_self_of_head_false
      rw [hm] at hpre
      obtain ⟨t2, ht⟩ := hpre
      exact dropWhile_head_false (t := ct ++ t2) ht.symm
  rw [pyStrip_eq_rdropWhile (pyStrip l), hself]
  exact List.rdropWhile_idempotent isPySpace (l.dropWhile isPySpace)

/-- `pyDedup` yields a sublist (first-seen order is preserved). -/
theorem pyDedup_sublist : ∀ l : List Text, List.Sublist (pyDedup l) l := by
  intro l
  induction l using pyDedup.induct with
  | case1 => simp [pyDedup]
  | case2 x xs ih =>
    simp only [pyDedup]
    exact List.Sublist.cons₂ x (ih.trans (List.filter_sublist xs))

/-- `pyDedup` yields a duplicate-free list. -/
theorem pyDedup_nodup : ∀ l : List Text, (pyDedup l).Nodup := by
  intro l
  induction l using pyDedup.induct with
  | case1 => simp [pyDedup]
  | case2 x xs ih =>
    simp only [pyDedup]
    refine List.nodup_cons.mpr ⟨fun hx => ?_, ih⟩
    have hmem : x ∈ xs.filter (fun y => y ≠ x) := (pyDedup_sublist _).subset hx
    have hx2 := List.of_mem_filter hmem
    simp at hx2

/-- The buggy attraction pattern cannot start a match without a literal
backslash among its first characters. -/
theorem attrMatch_none_of_no_backslash {cs : Text} (h : bslash ∉ cs) :
    attrMatch cs = none := by
  unfold attrMatch attrMarker
  match cs with
  | [] => rfl
  | [c1] => rfl
  | c1 :: c2 :: rest =>
    have h2 : c2 ≠ bslash := fun he => h (by simp [he])
    have h1 : c1 ≠ bslash := fun he => h (by simp [he])
    simp [h1, h2]

/-- Without a literal backslash in the text, the findall scan finds
nothing, whatever the fuel. -/
theorem findallAttrGo_eq_nil_of_no_backslash :
    ∀ (fuel : Nat) (cs : Text), bslash ∉ cs → findallAttrGo fuel cs = [] := by
  intro fuel
  induction fuel with
  | zero => intro cs _; cases cs <;> rfl
  | succ n ih =>
    intro cs h
    match cs with
    | [] => rfl
    | c :: rest =>
      rw [findallAttrGo, attrMatch_none_of_no_backslash h]
      exact ih rest (fun hr => h (List.mem_cons_of_mem c hr))

/-!
## Claim theorems
-/

/-- A guide text of the shape the spec's example describes: a numbered
list of three Delhi attractions.  It contains no literal backslash. -/
def redFortGuideText : Text :=
  str "1. Red Fort - historic fort in Delhi\n2. India Gate - war memorial\n3. Lotus Temple - Bahai house of worship"

/-- C1: the claim says the attraction extraction on the numbered-list
text returns ["Red Fort", "India Gate", "Lotus Temple"].  It does not:
the raw-string pattern of line 27 doubles every backslash, so the
compiled regex only matches text containing literal backslash
characters; on any text without a backslash — in particular on any
normal numbered list — `travel_guide` extracts no attractions at all. -/
theorem travel_guide_regex_requires_backslash (city text : Text)
    (h : bslash ∉ text) : (travel_guide city text).attractions = [] := by
  show (pyDedup (((findallAttr text).map pyStrip).filter _)).take 3 = []
  rw [show findallAttr text = [] from
    findallAttrGo_eq_nil_of_no_backslash text.length text h]
  simp [pyDedup]

/-- Witness for C1: the spec's own example text has no backslash, and the
code extracts nothing from it. -/
theorem travel_guide_regex_requires_backslash_witness :
    bslash ∉ redFortGuideText ∧
    (travel_guide (str "Delhi") redFortGuideText).attractions = [] :=
  ⟨by decide, travel_guide_regex_requires_backslash _ _ (by decide)⟩

/-- C3: every run of the pipeline invokes the itinerary generator with
the hardcoded adventure-activity list ["Paragliding", "Jet Skiing"]
(line 207), independent of the city, trip length, or guide response, and
`main_travel_planner`'s itinerary output is exactly the backend's answer
to that call. -/
theorem main_travel_planner_hardcoded_adventure_sports (city : Text)
    (days : Nat) (guide_response hotel_response : Text)
    (backend : ItineraryPromptFields → Text) :
    (main_itinerary_call city days guide_response).adventure_sports =
      [str "Paragliding", str "Jet Skiing"] ∧
    (main_travel_planner city days guide_response backend
        hotel_response).itinerary =
      generate_itinerary (main_itinerary_call city days guide_response) backend :=
  ⟨rfl, rfl⟩

/-- C4: `calculate_total_cost` sums the two "Estimated cost" lines of the
spec's example to 700, and swapping the currency symbols (both dollar,
both rupee, or exchanged) does not change the sum. -/
theorem calculate_total_cost_symbol_agnostic_700 :
    calculate_total_cost
      (str "Day 1:\n- Estimated cost: ₹500\nDay 2:\n- Estimated cost: $200") = 700 ∧
    calculate_total_cost
      (str "Day 1:\n- Estimated cost: $500\nDay 2:\n- Estimated cost: ₹200") = 700 ∧
    calculate_total_cost
      (str "Day 1:\n- Estimated cost: $500\nDay 2:\n- Estimated cost: $200") = 700 ∧
    calculate_total_cost
      (str "Day 1:\n- Estimated cost: ₹500\nDay 2:\n- Estimated cost: ₹200") = 700 := by
  refine ⟨?_, ?_, ?_, ?_⟩ <;> rfl

/-- C6: geocoding resolution: an undecodable geocoding body yields the
parse-failure error dict, an empty candidate list yields the
location-not-found error dict (a different message), and a non-empty
candidate list makes the report use the first candidate's coordinates. -/
theorem calamity_forecast_geocoding_branches (city : Text)
    (w : Option PyJson) (u : Option (List QuakeFeature))
    (g : Option (List FeedEntry)) :
    calamity_forecast city none w u g = .error geoFailMsg ∧
    calamity_forecast city (some []) w u g = .error (locNotFoundMsg city) ∧
    geoFailMsg ≠ locNotFoundMsg city ∧
    ∀ (r : GeoRecord) (rs : List GeoRecord),
      calamity_forecast city (some (r :: rs)) w u g =
        .report city r.lat r.lon (calamity_weather w) (calamity_alerts city g) := by
  refine ⟨rfl, rfl, fun hcontra => ?_, fun r rs => rfl⟩
  have := congrArg List.head? hcontra
  simp [geoFailMsg, locNotFoundMsg, str] at this

/-- C9: whatever the guide text, the extracted attraction list has at
most 3 entries, no duplicates, is a sublist of the stripped-and-filtered
regex matches (so first-seen order is preserved), and every entry is a
trimmed string of length strictly greater than 3. -/
theorem travel_guide_attractions_invariants (city text : Text) :
    ((travel_guide city text).attractions).length ≤ 3 ∧
    ((travel_guide city text).attractions).Nodup ∧
    List.Sublist (travel_guide city text).attractions
      (((findallAttr text).map pyStrip).filter (fun a => 3 < a.length)) ∧
    ∀ s ∈ (travel_guide city text).attractions,
      pyStrip s = s ∧ 3 < s.length := by
  have hattr : (travel_guide city text).attractions =
      (pyDedup (((findallAttr text).map pyStrip).filter
        (fun a => 3 < a.length))).take 3 := rfl
  set F := ((findallAttr text).map pyStrip).filter (fun a => 3 < a.length)
    with hF
  have hsub : List.Sublist (travel_guide city text).attractions F := by
    rw [hattr]
    exact (List.take_sublist 3 (pyDedup F)).trans (pyDedup_sublist F)
  refine ⟨?_, ?_, hsub, ?_⟩
  · rw [hattr]
    exact List.length_take_le 3 (pyDedup F)
  · rw [hattr]
    exact (List.take_sublist 3 (pyDedup F)).nodup (pyDedup_nodup F)
  · intro s hs
    have hmemF : s ∈ F := hsub.subset hs
    rw [hF] at hmemF
    have hlen := List.of_mem_filter hmemF
    have hmap := List.mem_of_mem_filter hmemF
    obtain ⟨r, _, hr⟩ := List.mem_map.mp hmap
    refine ⟨?_, by simpa using hlen⟩
    rw [← hr]
    exact pyStrip_idem r

/-- A USGS feature whose place names Delhi. -/
def delhiQuakeFeature : QuakeFeature :=
  { place := str "10km N of Delhi, India"
    mag := 5
    timeMs := 1700000000000
    url := str "usgs-event-url-1" }

/-- A GDACS entry whose title names Delhi. -/
def delhiAlertEntry : FeedEntry :=
  { title := str "Flood in Delhi"
    summary := str "Severe flooding reported near Delhi"
    link := str "gdacs-link-1" }

/-- C2: the claim says that when the weather call fails the report keeps
its populated earthquake and disaster-alert fields.  The code disagrees
about earthquakes: on a concrete aggregation where the weather body is
undecodable while the USGS and GDACS sources both return Delhi entries,
the returned value is exactly the 5-tuple (city, lat, lon,
weather-error-marker, alerts) of line 102 — the weather field is the
error marker and the alerts are populated, but the earthquake list the
code builds on lines 72-85 (here non-empty) appears nowhere in it. -/
theorem calamity_forecast_weather_failure_drops_earthquakes :
    calamity_forecast (str "Delhi") (some [{ lat := 28, lon := 77 }]) none
        (some [delhiQuakeFeature]) (some [delhiAlertEntry]) =
      .report (str "Delhi") 28 77
        (.inr (str "Weather API failed or returned invalid data"))
        (.inl [{ event := str "Flood in Delhi"
                 details := str "Severe flooding reported near Delhi"
                 link := str "gdacs-link-1" }]) ∧
    calamity_earthquakes (str "Delhi") (some [delhiQuakeFeature]) =
      .inl [{ place := str "10km N of Delhi, India"
              magnitude := 5
              time := ((1700000000000 : Int) : ℚ) / 1000
              url := str "usgs-event-url-1" }] ∧
    ((1700000000000 : Int) : ℚ) / 1000 = 1700000000 := by
  refine ⟨rfl, rfl, by norm_num⟩

/-- C5: a hotel-info string that is not shaped like a JSON list — its
stripped form does not start with `[`, or fails JSON parsing — makes
`generate_summary` substitute the literal "Hotel data unavailable"
marker as the recommended hotel (the embedded function is total: the
source's `except` catches every error on this path). -/
theorem generate_summary_unparseable_hotel_marker (city : Text)
    (days : Nat) (attractions : List Text) (total_cost : Nat)
    (hotel_info : Text)
    (h : startsWithL (str "[") (pyStrip hotel_info) = false ∨
      json_loads (pyStrip hotel_info) = none) :
    (generate_summary city days attractions hotel_info
        total_cost).top_hotel =
      PyJson.str (str "Hotel data unavailable") := by
  show top_hotel hotel_info = _
  rcases h with h | h
  · simp [top_hotel, h]
  · rcases hc : startsWithL (str "[") (pyStrip hotel_info) with _ | _
    · simp [top_hotel, hc]
    · simp [top_hotel, hc, h]

/-- Witness for C5: plain prose hotel text gets the marker. -/
theorem generate_summary_unparseable_hotel_marker_witness :
    (startsWithL (str "[") (pyStrip (str "Plain prose hotel suggestions for Paris.")) = false ∨
      json_loads (pyStrip (str "Plain prose hotel suggestions for Paris.")) = none) ∧
    (generate_summary (str "Paris") 3 [] (str "Plain prose hotel suggestions for Paris.")
        0).top_hotel = PyJson.str (str "Hotel data unavailable") :=
  ⟨Or.inl (by decide),
   generate_summary_unparseable_hotel_marker _ _ _ _ _ (Or.inl (by decide))⟩

/-- C7: if no USGS feature's place description contains the query city
as a case-insensitive substring, the client-side filtered earthquake
list is empty. -/
theorem calamity_earthquakes_no_city_match_empty (city : Text)
    (features : List QuakeFeature)
    (h : ∀ f ∈ features, isSubstr (lowerL city) (lowerL f.place) = false) :
    calamity_earthquakes city (some features) = .inl [] := by
  show Sum.inl (List.map _ (List.filter _ _)) = _
  rw [List.filter_eq_nil_iff.mpr (fun f hf => by simp [h f hf])]
  rfl

/-- A USGS feature for Tokyo, matching nothing about Delhi. -/
def tokyoQuakeFeature : QuakeFeature :=
  { place := str "Tokyo, Japan"
    mag := 6
    timeMs := 1700000000000
    url := str "usgs-event-url-2" }

/-- Witness for C7: a Tokyo-only catalog filtered for Delhi is empty. -/
theorem calamity_earthquakes_no_city_match_empty_witness :
    (∀ f ∈ [tokyoQuakeFeature],
      isSubstr (lowerL (str "Delhi")) (lowerL f.place) = false) ∧
    calamity_earthquakes (str "Delhi") (some [tokyoQuakeFeature]) = .inl [] :=
  ⟨by decide, calamity_earthquakes_no_city_match_empty _ _ (by decide)⟩

/-- C8: if no GDACS entry mentions the city in its title or summary, the
alert field of the report is the literal "No GDACS disaster alerts
found." marker string, not an (empty) list of alerts. -/
theorem calamity_alerts_no_match_marker (city : Text)
    (entries : List FeedEntry)
    (h : ∀ e ∈ entries, isSubstr (lowerL city) (lowerL e.title) = false ∧
      isSubstr (lowerL city) (lowerL e.summary) = false) :
    calamity_alerts city (some entries) =
      .inr (str "No GDACS disaster alerts found.") ∧
    ∀ xs : List AlertOut, calamity_alerts city (some entries) ≠ .inl xs := by
  have hfil : entries.filter (fun e =>
      isSubstr (lowerL city) (lowerL e.title) ||
      isSubstr (lowerL city) (lowerL e.summary)) = [] :=
    List.filter_eq_nil_iff.mpr (fun e he => by simp [(h e he).1, (h e he).2])
  have hres : calamity_alerts city (some entries) =
      .inr (str "No GDACS disaster alerts found.") := by
    simp only [calamity_alerts]
    rw [hfil]
  exact ⟨hres, fun xs hcontra => by rw [hres] at hcontra; exact Sum.noConfusion hcontra⟩

/-- A GDACS entry about Tokyo, matching nothing about Delhi. -/
def tokyoAlertEntry : FeedEntry :=
  { title := str "Cyclone near Tokyo"
    summary := str "Tropical cyclone east of Japan"
    link := str "gdacs-link-2" }

/-- Witness for C8: a Tokyo-only feed queried for Delhi yields the
no-alerts marker. -/
theorem calamity_alerts_no_match_marker_witness :
    (∀ e ∈ [tokyoAlertEntry],
      isSubstr (lowerL (str "Delhi")) (lowerL e.title) = false ∧
      isSubstr (lowerL (str "Delhi")) (lowerL e.summary) = false) ∧
    calamity_alerts (str "Delhi") (some [tokyoAlertEntry]) =
      .inr (str "No GDACS disaster alerts found.") :=
  ⟨by decide, (calamity_alerts_no_match_marker _ _ (by decide)).1⟩

/-- C10: the well-formed empty JSON list "[]" parses successfully, and
`generate_summary` then reports "N/A" as the recommended hotel — a value
distinct from the parse-failure marker "Hotel data unavailable". -/
theorem generate_summary_empty_hotel_list_na (city : Text) (days : Nat)
    (attractions : List Text) (total_cost : Nat) :
    (generate_summary city days attractions (str "[]")
        total_cost).top_hotel = PyJson.str (str "N/A") ∧
    str "N/A" ≠ str "Hotel data unavailable" := by
  exact ⟨rfl, by decide⟩

end TravelAgent
